import Mathlib

/-!
Verification of the request validation and provider-dispatch contract of
`src/lambda_function.py` (an AWS Lambda handler that routes a prompt to one
of two AI providers).

The embedding models:
  * JSON values (`Json`) and Python's `json.loads` (`loads`), including
    Python dict semantics (last duplicate key wins, `dict.get`);
  * Python truthiness (`pyTruthy`), used by `if not prompt or not target_model`;
  * Python `str()` formatting of values interpolated into f-strings (`pyStr`);
  * the secret store as the outcome of `secrets_client.get_secret_value`:
    either a `ClientError` or the returned `SecretString` (`Except Unit String`);
  * exceptions as `Except PyErr`; the handler's outer `try/except` maps any
    raised exception to the 500 response;
  * `json.dumps` on response bodies is modelled by carrying the `Json` value
    itself (serialization is injective, so body equality is stated on `Json`).

The handler is `lambda_handler : Event → Except Unit String → HandlerResult`;
`HandlerResult` carries the HTTP response together with a flag recording
whether `get_secrets` was invoked during the run (needed to reason about when
the secret store is contacted).
-/

/-- JSON values, as produced by Python's `json.loads` (numbers restricted to
integers; the handler never arithmetically uses numbers). -/
inductive Json where
  | null
  | bool (b : Bool)
  | num (n : Int)
  | str (s : String)
  | arr (xs : List Json)
  | obj (fields : List (String × Json))

/-- Lookup in a Python dict built from an association list of parsed object
fields: a later duplicate key overwrites an earlier one, so the last match
wins. Models both `d.get(k)` (as `Option`) and the basis of `d[k]`. -/
def dictLookup (fs : List (String × Json)) (k : String) : Option Json :=
  match fs with
  | [] => none
  | (k2, v) :: rest =>
      match dictLookup rest k with
      | some v2 => some v2
      | none => if k2 = k then some v else none

/-- Python truthiness of a JSON-decoded value: `None`, `False`, `0`, `""`,
`[]` and `\x7b\x7d` are falsy, everything else truthy. -/
def pyTruthy : Json → Bool
  | .null => false
  | .bool b => b
  | .num n => n != 0
  | .str s => s != ""
  | .arr xs => !xs.isEmpty
  | .obj fs => !fs.isEmpty

/-- Truthiness of the result of `body.get(key)`: a missing key gives Python
`None`, which is falsy. -/
def pyTruthyOpt : Option Json → Bool
  | none => false
  | some j => pyTruthy j

/-- Field access on a JSON object (`none` on a non-object or a missing key). -/
def getField (j : Json) (k : String) : Option Json :=
  match j with
  | .obj fs => dictLookup fs k
  | _ => none

/-! ### A JSON parser modelling `json.loads`

Recursive-descent parser over the character list. Invalid input yields
`none`, modelling the `JSONDecodeError` that `json.loads` raises (caught by
the handler's outer `try/except`). -/

/-- Skip JSON whitespace (space, tab, newline, carriage return). -/
def skipWs : List Char → List Char
  | c :: cs =>
      if c = ' ' ∨ c = '\t' ∨ c = '\n' ∨ c = '\r' then skipWs cs else c :: cs
  | [] => []

/-- Value of a hex digit, for `\u` escapes. -/
def hexVal (c : Char) : Option Nat :=
  if '0' ≤ c ∧ c ≤ '9' then some (c.toNat - 48)
  else if 'a' ≤ c ∧ c ≤ 'f' then some (c.toNat - 87)
  else if 'A' ≤ c ∧ c ≤ 'F' then some (c.toNat - 55)
  else none

/-- Parse the body of a JSON string after the opening quote; returns the
characters of the string and the input after the closing quote. -/
def parseStrBody : List Char → Option (List Char × List Char)
  | [] => none
  | '"' :: rest => some ([], rest)
  | '\\' :: '"' :: rest => (parseStrBody rest).map fun p => ('"' :: p.1, p.2)
  | '\\' :: '\\' :: rest => (parseStrBody rest).map fun p => ('\\' :: p.1, p.2)
  | '\\' :: '/' :: rest => (parseStrBody rest).map fun p => ('/' :: p.1, p.2)
  | '\\' :: 'b' :: rest => (parseStrBody rest).map fun p => ('\x08' :: p.1, p.2)
  | '\\' :: 'f' :: rest => (parseStrBody rest).map fun p => ('\x0c' :: p.1, p.2)
  | '\\' :: 'n' :: rest => (parseStrBody rest).map fun p => ('\n' :: p.1, p.2)
  | '\\' :: 'r' :: rest => (parseStrBody rest).map fun p => ('\r' :: p.1, p.2)
  | '\\' :: 't' :: rest => (parseStrBody rest).map fun p => ('\t' :: p.1, p.2)
  | '\\' :: 'u' :: h1 :: h2 :: h3 :: h4 :: rest =>
      match hexVal h1, hexVal h2, hexVal h3, hexVal h4 with
      | some a, some b, some c, some d =>
          (parseStrBody rest).map fun p =>
            (Char.ofNat (((a * 16 + b) * 16 + c) * 16 + d) :: p.1, p.2)
      | _, _, _, _ => none
  | '\\' :: _ => none
  | c :: rest => (parseStrBody rest).map fun p => (c :: p.1, p.2)

/-- Parse a nonempty run of decimal digits into a natural number, rejecting a
leading zero followed by more digits (as JSON does). -/
def parseNat (cs : List Char) : Option (Nat × List Char) :=
  let digits := cs.takeWhile Char.isDigit
  let rest := cs.dropWhile Char.isDigit
  match digits with
  | [] => none
  | d :: ds =>
      if d = '0' ∧ ds ≠ [] then none
      else some (digits.foldl (fun a c => a * 10 + (c.toNat - 48)) 0, rest)

mutual

/-- Parse one JSON value (fuel-bounded recursive descent). -/
def parseVal : Nat → List Char → Option (Json × List Char)
  | 0, _ => none
  | fuel + 1, cs =>
      match skipWs cs with
      | 'n' :: 'u' :: 'l' :: 'l' :: rest => some (.null, rest)
      | 't' :: 'r' :: 'u' :: 'e' :: rest => some (.bool true, rest)
      | 'f' :: 'a' :: 'l' :: 's' :: 'e' :: rest => some (.bool false, rest)
      | '"' :: rest =>
          (parseStrBody rest).map fun p => (.str (String.mk p.1), p.2)
      | '[' :: rest =>
          match skipWs rest with
          | ']' :: rest2 => some (.arr [], rest2)
          | cs2 => (parseElems fuel cs2).map fun p => (.arr p.1, p.2)
      | '{' :: rest =>
          match skipWs rest with
          | '}' :: rest2 => some (.obj [], rest2)
          | cs2 => (parseFields fuel cs2).map fun p => (.obj p.1, p.2)
      | '-' :: rest =>
          (parseNat rest).map fun p => (.num (-(p.1 : Int)), p.2)
      | c :: rest =>
          if c.isDigit then (parseNat (c :: rest)).map fun p => (.num p.1, p.2)
          else none
      | [] => none

/-- Parse the comma-separated elements of a nonempty JSON array, up to and
including the closing bracket. -/
def parseElems : Nat → List Char → Option (List Json × List Char)
  | 0, _ => none
  | fuel + 1, cs =>
      match parseVal fuel cs with
      | none => none
      | some (v, rest) =>
          match skipWs rest with
          | ',' :: rest2 =>
              (parseElems fuel rest2).map fun p => (v :: p.1, p.2)
          | ']' :: rest2 => some ([v], rest2)
          | _ => none

/-- Parse the comma-separated members of a nonempty JSON object, up to and
including the closing brace. -/
def parseFields : Nat → List Char → Option (List (String × Json) × List Char)
  | 0, _ => none
  | fuel + 1, cs =>
      match skipWs cs with
      | '"' :: rest =>
          match parseStrBody rest with
          | none => none
          | some (key, rest2) =>
              match skipWs rest2 with
              | ':' :: rest3 =>
                  match parseVal fuel rest3 with
                  | none => none
                  | some (v, rest4) =>
                      match skipWs rest4 with
                      | ',' :: rest5 =>
                          (parseFields fuel rest5).map fun p =>
                            ((String.mk key, v) :: p.1, p.2)
                      | '}' :: rest5 => some ([(String.mk key, v)], rest5)
                      | _ => none
              | _ => none
      | _ => none

end

/-- `json.loads`: parse a complete JSON document, requiring the whole input
to be consumed (up to trailing whitespace). `none` models `JSONDecodeError`. -/
def loads (s : String) : Option Json :=
  match parseVal (2 * s.length + 4) s.data with
  | some (j, rest) => if skipWs rest = [] then some j else none
  | none => none

/-! ### Python `str()` of decoded JSON values

The provider stubs interpolate the prompt into an f-string; for a string the
interpolation is the string itself, for other values it is Python's `str()`
(which for containers is `repr()`). Only the string case is ever exercised by
the specification's scenarios, but the embedding keeps the general behaviour. -/

mutual

/-- Python `repr()` of a JSON-decoded value. -/
def pyRepr : Json → String
  | .null => "None"
  | .bool true => "True"
  | .bool false => "False"
  | .num n => toString n
  | .str s => "'" ++ s ++ "'"
  | .arr xs => "[" ++ pyReprElems xs ++ "]"
  | .obj fs => "\x7b" ++ pyReprFields fs ++ "\x7d"

/-- Comma-joined `repr()`s of list elements. -/
def pyReprElems : List Json → String
  | [] => ""
  | [x] => pyRepr x
  | x :: xs => pyRepr x ++ ", " ++ pyReprElems xs

/-- Comma-joined `repr()`s of dict items. -/
def pyReprFields : List (String × Json) → String
  | [] => ""
  | [(k, v)] => "'" ++ k ++ "': " ++ pyRepr v
  | (k, v) :: fs => "'" ++ k ++ "': " ++ pyRepr v ++ ", " ++ pyReprFields fs

end

/-- Python `str()` as used by f-string interpolation: the identity on
strings, `repr()`-like on every other value. -/
def pyStr : Json → String
  | .str s => s
  | j => pyRepr j

/-- Python `str.lower()` as applied to `target_model` (ASCII case
folding, character by character). -/
def pyLower (s : String) : String :=
  String.mk (s.data.map Char.toLower)

/-- The exceptions the handler's code can raise; they are all caught by the
outer `try/except` and mapped to the 500 response. -/
inductive PyErr where
  | clientError
  | jsonDecodeError
  | keyError (k : String)
  | typeError
  | attributeError

/-- Python dict subscription `d[k]` on a JSON-decoded value: `KeyError` on a
missing key, `TypeError` when the value is not a dict. -/
def pySubscript (j : Json) (k : String) : Except PyErr Json :=
  match j with
  | .obj fs =>
      match dictLookup fs k with
      | some v => Except.ok v
      | none => Except.error (PyErr.keyError k)
  | _ => Except.error PyErr.typeError

/-- `get_secrets` (src/lambda_function.py:14-21): fetches the secret value
and decodes its `SecretString` with `json.loads`. The store outcome is the
result of `secrets_client.get_secret_value`: `Except.error ()` models a
`ClientError` (logged and re-raised), `Except.ok s` the returned
`SecretString`. A string that is not valid JSON raises `JSONDecodeError`. -/
def get_secrets (store : Except Unit String) : Except PyErr Json :=
  match store with
  | Except.error _ => Except.error PyErr.clientError
  | Except.ok s =>
      match loads s with
      | some secret => Except.ok secret
      | none => Except.error PyErr.jsonDecodeError

/-- `call_bedrock_api` (src/lambda_function.py:23-28): simulated Bedrock
call; ignores the api key and returns the mocked response dict. -/
def call_bedrock_api (prompt : Json) (api_key : Json) : Json :=
  Json.obj [("model", Json.str "bedrock"),
    ("reply", Json.str ("Simulated Bedrock response to '" ++ pyStr prompt ++ "'"))]

/-- `call_azure_openai` (src/lambda_function.py:30-45): simulated Azure
OpenAI call; builds headers and data it never sends and returns the mocked
response dict. -/
def call_azure_openai (prompt : Json) (api_key : Json) (endpoint : Json) : Json :=
  Json.obj [("model", Json.str "azure_openai"),
    ("reply", Json.str ("Simulated Azure OpenAI response to '" ++ pyStr prompt ++ "'"))]

/-- The inbound Lambda event: `event.get('httpMethod')` (`none` when the key
is absent) and `event.get('body', '\x7b\x7d')` (`none` when the `body` key is
absent, in which case the default `"\x7b\x7d"` is used). -/
structure Event where
  httpMethod : Option String
  body : Option String

/-- The handler's return value: a status code and the response body (the
`Json` value passed to `json.dumps`). -/
structure Response where
  statusCode : Nat
  body : Json

/-- The observable outcome of one handler activation: the response, plus
whether `get_secrets` was invoked (i.e. whether the secret store was
contacted) during the run. -/
structure HandlerResult where
  response : Response
  secretsQueried : Bool

/-- Body of an error response: `\x7b"error": msg\x7d`. -/
def errBody (msg : String) : Json :=
  Json.obj [("error", Json.str msg)]

/-- The 500 response produced by the outer `except Exception` block. -/
def internalError : Response :=
  ⟨500, errBody "Internal server error"⟩

/-- `lambda_handler` (src/lambda_function.py:47-86), with every exception
routed to `internalError` by the outer `try/except`:
  * non-POST method → 405;
  * `json.loads` failure on the body, or `.get` on a non-dict body → 500;
  * falsy `prompt` or `target_model` → 400 (missing);
  * then `get_secrets()` is called — before the `target_model` whitelist
    check — and its failure → 500;
  * `target_model.lower()` on a non-string → `AttributeError` → 500;
  * `'bedrock'` / `'azure'` select a provider (their credential subscripts
    may raise `KeyError` → 500); any other string → 400 (invalid). -/
def lambda_handler (event : Event) (store : Except Unit String) : HandlerResult :=
  if event.httpMethod ≠ some "POST" then
    ⟨⟨405, errBody "Method Not Allowed, only POST supported"⟩, false⟩
  else
    match loads (event.body.getD "\x7b\x7d") with
    | none => ⟨internalError, false⟩
    | some (Json.obj fields) =>
        let prompt := dictLookup fields "prompt"
        let target_model := dictLookup fields "target_model"
        if !pyTruthyOpt prompt || !pyTruthyOpt target_model then
          ⟨⟨400, errBody "Missing 'prompt' or 'target_model' in request body"⟩, false⟩
        else
          match get_secrets store with
          | Except.error _ => ⟨internalError, true⟩
          | Except.ok secrets =>
              match target_model with
              | some (Json.str t) =>
                  if pyLower t = "bedrock" then
                    match pySubscript secrets "bedrock_api_key" with
                    | Except.error _ => ⟨internalError, true⟩
                    | Except.ok key =>
                        ⟨⟨200, call_bedrock_api (prompt.getD Json.null) key⟩, true⟩
                  else if pyLower t = "azure" then
                    match pySubscript secrets "azure_api_key" with
                    | Except.error _ => ⟨internalError, true⟩
                    | Except.ok key =>
                        match pySubscript secrets "azure_endpoint" with
                        | Except.error _ => ⟨internalError, true⟩
                        | Except.ok endpoint =>
                            ⟨⟨200, call_azure_openai (prompt.getD Json.null) key endpoint⟩, true⟩
                  else
                    ⟨⟨400, errBody "Invalid target_model, choose 'bedrock' or 'azure'"⟩, true⟩
              | _ => ⟨internalError, true⟩
    | some _ => ⟨internalError, false⟩

/-! ### Branch lemmas

One lemma per control-flow outcome of `lambda_handler`, each characterising
the full `HandlerResult` (response and whether the secret store was
contacted) under the hypotheses that select that branch. -/

/-- Under a POST method, a body that decodes to a JSON object, and truthy
`prompt` and `target_model` fields, the handler reduces to the
credential-resolution and dispatch tail of the source (lines 65-80). -/
theorem lambda_handler_validated (ev : Event) (store : Except Unit String)
    (fields : List (String × Json)) (p tj : Json)
    (hm : ev.httpMethod = some "POST")
    (hb : loads (ev.body.getD "\x7b\x7d") = some (Json.obj fields))
    (hp : dictLookup fields "prompt" = some p)
    (ht : dictLookup fields "target_model" = some tj)
    (hpt : pyTruthy p = true) (htt : pyTruthy tj = true) :
    lambda_handler ev store =
      match get_secrets store with
      | Except.error _ => ⟨internalError, true⟩
      | Except.ok secrets =>
          match tj with
          | Json.str t =>
              if pyLower t = "bedrock" then
                match pySubscript secrets "bedrock_api_key" with
                | Except.error _ => ⟨internalError, true⟩
                | Except.ok key => ⟨⟨200, call_bedrock_api p key⟩, true⟩
              else if pyLower t = "azure" then
                match pySubscript secrets "azure_api_key" with
                | Except.error _ => ⟨internalError, true⟩
                | Except.ok key =>
                    match pySubscript secrets "azure_endpoint" with
                    | Except.error _ => ⟨internalError, true⟩
                    | Except.ok endpoint =>
                        ⟨⟨200, call_azure_openai p key endpoint⟩, true⟩
              else
                ⟨⟨400, errBody "Invalid target_model, choose 'bedrock' or 'azure'"⟩, true⟩
          | _ => ⟨internalError, true⟩ := by
  unfold lambda_handler
  rw [if_neg (by simp [hm]), hb]
  simp only [hp, ht, pyTruthyOpt, hpt, htt, Bool.not_true, Bool.false_or,
    Bool.or_self, Option.getD_some]
  rw [if_neg (by simp)]
  cases get_secrets store with
  | error e => rfl
  | ok secrets => cases tj <;> rfl

/-- A non-POST method short-circuits to 405 before anything else runs. -/
theorem handler_not_post (ev : Event) (store : Except Unit String)
    (h : ev.httpMethod ≠ some "POST") :
    lambda_handler ev store =
      ⟨⟨405, errBody "Method Not Allowed, only POST supported"⟩, false⟩ := by
  unfold lambda_handler
  rw [if_pos h]

/-- A POST body that `json.loads` rejects raises, and the outer handler
returns 500 without contacting the secret store. -/
theorem handler_bad_json (ev : Event) (store : Except Unit String)
    (hm : ev.httpMethod = some "POST")
    (hl : loads (ev.body.getD "\x7b\x7d") = none) :
    lambda_handler ev store = ⟨internalError, false⟩ := by
  unfold lambda_handler
  rw [if_neg (by simp [hm]), hl]

/-- A POST body that decodes to a non-object raises `AttributeError` at
`body.get`, and the outer handler returns 500 without contacting the secret
store. -/
theorem handler_nonobj_body (ev : Event) (store : Except Unit String) (j : Json)
    (hm : ev.httpMethod = some "POST")
    (hl : loads (ev.body.getD "\x7b\x7d") = some j)
    (h : ∀ fs, j ≠ Json.obj fs) :
    lambda_handler ev store = ⟨internalError, false⟩ := by
  unfold lambda_handler
  rw [if_neg (by simp [hm]), hl]
  cases j with
  | obj fs => exact absurd rfl (h fs)
  | null => rfl
  | bool b => rfl
  | num n => rfl
  | str s => rfl
  | arr xs => rfl

/-- A falsy `prompt` or `target_model` gives the missing-fields 400 without
contacting the secret store. -/
theorem handler_missing (ev : Event) (store : Except Unit String)
    (fields : List (String × Json))
    (hm : ev.httpMethod = some "POST")
    (hl : loads (ev.body.getD "\x7b\x7d") = some (Json.obj fields))
    (hc : (!pyTruthyOpt (dictLookup fields "prompt") ||
        !pyTruthyOpt (dictLookup fields "target_model")) = true) :
    lambda_handler ev store =
      ⟨⟨400, errBody "Missing 'prompt' or 'target_model' in request body"⟩, false⟩ := by
  unfold lambda_handler
  rw [if_neg (by simp [hm]), hl]
  simp only [hc, if_true]

/-- Past validation, a failing secret lookup (or an undecodable secret
payload) raises, and the handler returns 500 — the store was contacted. -/
theorem handler_secrets_error (ev : Event) (store : Except Unit String)
    (fields : List (String × Json)) (p tj : Json) (e : PyErr)
    (hm : ev.httpMethod = some "POST")
    (hb : loads (ev.body.getD "\x7b\x7d") = some (Json.obj fields))
    (hp : dictLookup fields "prompt" = some p)
    (ht : dictLookup fields "target_model" = some tj)
    (hpt : pyTruthy p = true) (htt : pyTruthy tj = true)
    (hs : get_secrets store = Except.error e) :
    lambda_handler ev store = ⟨internalError, true⟩ := by
  rw [lambda_handler_validated ev store fields p tj hm hb hp ht hpt htt, hs]

/-- Past validation with resolved secrets, a truthy non-string
`target_model` raises `AttributeError` at `.lower()`, giving 500. -/
theorem handler_target_nonstring (ev : Event) (store : Except Unit String)
    (fields : List (String × Json)) (p tj : Json) (secrets : Json)
    (hm : ev.httpMethod = some "POST")
    (hb : loads (ev.body.getD "\x7b\x7d") = some (Json.obj fields))
    (hp : dictLookup fields "prompt" = some p)
    (ht : dictLookup fields "target_model" = some tj)
    (hpt : pyTruthy p = true) (htt : pyTruthy tj = true)
    (hs : get_secrets store = Except.ok secrets)
    (hns : ∀ s, tj ≠ Json.str s) :
    lambda_handler ev store = ⟨internalError, true⟩ := by
  rw [lambda_handler_validated ev store fields p tj hm hb hp ht hpt htt, hs]
  cases tj with
  | str s => exact absurd rfl (hns s)
  | null => rfl
  | bool b => rfl
  | num n => rfl
  | arr xs => rfl
  | obj fs => rfl

/-- Past validation with resolved secrets, any casing of `bedrock` with a
present `bedrock_api_key` dispatches to the Bedrock variant (200). -/
theorem handler_bedrock_ok (ev : Event) (store : Except Unit String)
    (fields : List (String × Json)) (p : Json) (t : String) (secrets key : Json)
    (hm : ev.httpMethod = some "POST")
    (hb : loads (ev.body.getD "\x7b\x7d") = some (Json.obj fields))
    (hp : dictLookup fields "prompt" = some p)
    (ht : dictLookup fields "target_model" = some (Json.str t))
    (hpt : pyTruthy p = true) (hne : t ≠ "")
    (hs : get_secrets store = Except.ok secrets)
    (hlow : pyLower t = "bedrock")
    (hk : pySubscript secrets "bedrock_api_key" = Except.ok key) :
    lambda_handler ev store = ⟨⟨200, call_bedrock_api p key⟩, true⟩ := by
  rw [lambda_handler_validated ev store fields p (Json.str t) hm hb hp ht hpt
    (by simp [pyTruthy, hne]), hs]
  dsimp only
  rw [if_pos hlow, hk]

/-- Past validation with resolved secrets, any casing of `bedrock` with a
missing `bedrock_api_key` raises `KeyError`, giving 500. -/
theorem handler_bedrock_keyerr (ev : Event) (store : Except Unit String)
    (fields : List (String × Json)) (p : Json) (t : String) (secrets : Json)
    (e : PyErr)
    (hm : ev.httpMethod = some "POST")
    (hb : loads (ev.body.getD "\x7b\x7d") = some (Json.obj fields))
    (hp : dictLookup fields "prompt" = some p)
    (ht : dictLookup fields "target_model" = some (Json.str t))
    (hpt : pyTruthy p = true) (hne : t ≠ "")
    (hs : get_secrets store = Except.ok secrets)
    (hlow : pyLower t = "bedrock")
    (hk : pySubscript secrets "bedrock_api_key" = Except.error e) :
    lambda_handler ev store = ⟨internalError, true⟩ := by
  rw [lambda_handler_validated ev store fields p (Json.str t) hm hb hp ht hpt
    (by simp [pyTruthy, hne]), hs]
  dsimp only
  rw [if_pos hlow, hk]

/-- Past validation with resolved secrets, any casing of `azure` with both
azure credentials present dispatches to the Azure OpenAI variant (200). -/
theorem handler_azure_ok (ev : Event) (store : Except Unit String)
    (fields : List (String × Json)) (p : Json) (t : String)
    (secrets key endpoint : Json)
    (hm : ev.httpMethod = some "POST")
    (hb : loads (ev.body.getD "\x7b\x7d") = some (Json.obj fields))
    (hp : dictLookup fields "prompt" = some p)
    (ht : dictLookup fields "target_model" = some (Json.str t))
    (hpt : pyTruthy p = true) (hne : t ≠ "")
    (hs : get_secrets store = Except.ok secrets)
    (hlow : pyLower t = "azure")
    (hak : pySubscript secrets "azure_api_key" = Except.ok key)
    (hae : pySubscript secrets "azure_endpoint" = Except.ok endpoint) :
    lambda_handler ev store = ⟨⟨200, call_azure_openai p key endpoint⟩, true⟩ := by
  rw [lambda_handler_validated ev store fields p (Json.str t) hm hb hp ht hpt
    (by simp [pyTruthy, hne]), hs]
  dsimp only
  rw [if_neg (by rw [hlow]; decide), if_pos hlow, hak, hae]

/-- Past validation with resolved secrets, any casing of `azure` with a
missing `azure_api_key` raises `KeyError`, giving 500. -/
theorem handler_azure_keyerr (ev : Event) (store : Except Unit String)
    (fields : List (String × Json)) (p : Json) (t : String) (secrets : Json)
    (e : PyErr)
    (hm : ev.httpMethod = some "POST")
    (hb : loads (ev.body.getD "\x7b\x7d") = some (Json.obj fields))
    (hp : dictLookup fields "prompt" = some p)
    (ht : dictLookup fields "target_model" = some (Json.str t))
    (hpt : pyTruthy p = true) (hne : t ≠ "")
    (hs : get_secrets store = Except.ok secrets)
    (hlow : pyLower t = "azure")
    (hak : pySubscript secrets "azure_api_key" = Except.error e) :
    lambda_handler ev store = ⟨internalError, true⟩ := by
  rw [lambda_handler_validated ev store fields p (Json.str t) hm hb hp ht hpt
    (by simp [pyTruthy, hne]), hs]
  dsimp only
  rw [if_neg (by rw [hlow]; decide), if_pos hlow, hak]

/-- Past validation with resolved secrets, any casing of `azure` with an
`azure_api_key` but no `azure_endpoint` raises `KeyError`, giving 500. -/
theorem handler_azure_endpointerr (ev : Event) (store : Except Unit String)
    (fields : List (String × Json)) (p : Json) (t : String) (secrets key : Json)
    (e : PyErr)
    (hm : ev.httpMethod = some "POST")
    (hb : loads (ev.body.getD "\x7b\x7d") = some (Json.obj fields))
    (hp : dictLookup fields "prompt" = some p)
    (ht : dictLookup fields "target_model" = some (Json.str t))
    (hpt : pyTruthy p = true) (hne : t ≠ "")
    (hs : get_secrets store = Except.ok secrets)
    (hlow : pyLower t = "azure")
    (hak : pySubscript secrets "azure_api_key" = Except.ok key)
    (hae : pySubscript secrets "azure_endpoint" = Except.error e) :
    lambda_handler ev store = ⟨internalError, true⟩ := by
  rw [lambda_handler_validated ev store fields p (Json.str t) hm hb hp ht hpt
    (by simp [pyTruthy, hne]), hs]
  dsimp only
  rw [if_neg (by rw [hlow]; decide), if_pos hlow, hak, hae]

/-- Past validation with resolved secrets, a non-empty `target_model` string
whose case-fold is neither `bedrock` nor `azure` falls through to the
invalid-target 400 — after the secret store has already been contacted. -/
theorem handler_invalid_target (ev : Event) (store : Except Unit String)
    (fields : List (String × Json)) (p : Json) (t : String) (secrets : Json)
    (hm : ev.httpMethod = some "POST")
    (hb : loads (ev.body.getD "\x7b\x7d") = some (Json.obj fields))
    (hp : dictLookup fields "prompt" = some p)
    (ht : dictLookup fields "target_model" = some (Json.str t))
    (hpt : pyTruthy p = true) (hne : t ≠ "")
    (hs : get_secrets store = Except.ok secrets)
    (hnb : pyLower t ≠ "bedrock") (hna : pyLower t ≠ "azure") :
    lambda_handler ev store =
      ⟨⟨400, errBody "Invalid target_model, choose 'bedrock' or 'azure'"⟩, true⟩ := by
  rw [lambda_handler_validated ev store fields p (Json.str t) hm hb hp ht hpt
    (by simp [pyTruthy, hne]), hs]
  dsimp only
  rw [if_neg hnb, if_neg hna]

/-! ### Response body shapes -/

/-- Body shape of a successful dispatch: a `model` and a `reply` string
(the spec's ProviderResponse). -/
def isProviderBody (j : Json) : Prop :=
  ∃ m r, j = Json.obj [("model", Json.str m), ("reply", Json.str r)]

/-- Body shape of a failure: a single `error` string (the spec's
ErrorResponse). -/
def isErrorBody (j : Json) : Prop :=
  ∃ e, j = Json.obj [("error", Json.str e)]

theorem providerBody_bedrock (p k : Json) : isProviderBody (call_bedrock_api p k) :=
  ⟨"bedrock", "Simulated Bedrock response to '" ++ pyStr p ++ "'", rfl⟩

theorem providerBody_azure (p k e : Json) : isProviderBody (call_azure_openai p k e) :=
  ⟨"azure_openai", "Simulated Azure OpenAI response to '" ++ pyStr p ++ "'", rfl⟩

theorem errBody_isErrorBody (msg : String) : isErrorBody (errBody msg) :=
  ⟨msg, rfl⟩

theorem not_isErrorBody_bedrock (p k : Json) : ¬ isErrorBody (call_bedrock_api p k) := by
  rintro ⟨e, he⟩
  simp [call_bedrock_api, errBody] at he

theorem not_isErrorBody_azure (p k e0 : Json) : ¬ isErrorBody (call_azure_openai p k e0) := by
  rintro ⟨e, he⟩
  simp [call_azure_openai, errBody] at he

theorem not_isProviderBody_errBody (msg : String) : ¬ isProviderBody (errBody msg) := by
  rintro ⟨m, r, h⟩
  simp [errBody] at h

/-! ### The claims -/

/-- C1 (amended): a POST request with a non-empty `prompt` and a non-empty
string `target_model` whose case-fold is neither `bedrock` nor `azure` gets
status 400 with the invalid-target error body, provided the secret-store
lookup succeeds and its payload decodes — the lookup runs before the
whitelist check, so its failure yields 500 instead (see the
counterexample). -/
theorem C1_invalid_target_model_400 (ev : Event) (store : Except Unit String)
    (fields : List (String × Json)) (p : Json) (t : String) (secrets : Json)
    (hm : ev.httpMethod = some "POST")
    (hb : loads (ev.body.getD "\x7b\x7d") = some (Json.obj fields))
    (hp : dictLookup fields "prompt" = some p)
    (ht : dictLookup fields "target_model" = some (Json.str t))
    (hpt : pyTruthy p = true) (hne : t ≠ "")
    (hnb : pyLower t ≠ "bedrock") (hna : pyLower t ≠ "azure")
    (hs : get_secrets store = Except.ok secrets) :
    (lambda_handler ev store).response =
      ⟨400, errBody "Invalid target_model, choose 'bedrock' or 'azure'"⟩ := by
  rw [handler_invalid_target ev store fields p t secrets hm hb hp ht hpt hne hs hnb hna]

/-- C1 counterexample: for `target_model = "openai"` with a failing
secret-store lookup, the handler returns 500, not the claimed 400 — the
claim's "regardless of whether the secret-store lookup succeeds or fails"
does not hold. -/
theorem C1_counterexample :
    (lambda_handler
        ⟨some "POST", some "\x7b\"prompt\":\"x\",\"target_model\":\"openai\"\x7d"⟩
        (Except.error ())).response = ⟨500, errBody "Internal server error"⟩ ∧
      (lambda_handler
          ⟨some "POST", some "\x7b\"prompt\":\"x\",\"target_model\":\"openai\"\x7d"⟩
          (Except.error ())).response.statusCode ≠ 400 :=
  ⟨rfl, by decide⟩

/-- Witness for C1: `target_model = "openai"` with a succeeding lookup gets
the invalid-target 400. -/
theorem C1_witness :
    pyLower "openai" ≠ "bedrock" ∧
      (lambda_handler
          ⟨some "POST", some "\x7b\"prompt\":\"x\",\"target_model\":\"openai\"\x7d"⟩
          (Except.ok "\x7b\x7d")).response =
        ⟨400, errBody "Invalid target_model, choose 'bedrock' or 'azure'"⟩ :=
  ⟨by decide,
   C1_invalid_target_model_400 _ _
     [("prompt", Json.str "x"), ("target_model", Json.str "openai")]
     (Json.str "x") "openai" (Json.obj []) rfl rfl rfl rfl (by decide) (by decide)
     (by decide) (by decide) rfl⟩

/-- C2 (amended): the secret store is contacted only after the method check
and the presence/non-emptiness validation have passed — but before the
`target_model` whitelist check, so it is contacted for requests whose
`target_model` is truthy yet unsupported (see the counterexample). -/
theorem C2_secrets_only_after_presence_validation (ev : Event)
    (store : Except Unit String)
    (h : (lambda_handler ev store).secretsQueried = true) :
    ev.httpMethod = some "POST" ∧
      ∃ fields, loads (ev.body.getD "\x7b\x7d") = some (Json.obj fields) ∧
        pyTruthyOpt (dictLookup fields "prompt") = true ∧
        pyTruthyOpt (dictLookup fields "target_model") = true := by
  by_cases hm : ev.httpMethod = some "POST"
  · refine ⟨hm, ?_⟩
    rcases hl : loads (ev.body.getD "\x7b\x7d") with - | j
    · rw [handler_bad_json ev store hm hl] at h
      exact absurd h (by simp)
    · cases j with
      | obj fields =>
          by_cases hc : (!pyTruthyOpt (dictLookup fields "prompt") ||
              !pyTruthyOpt (dictLookup fields "target_model")) = true
          · rw [handler_missing ev store fields hm hl hc] at h
            exact absurd h (by simp)
          · refine ⟨fields, rfl, ?_, ?_⟩
            · cases hh : pyTruthyOpt (dictLookup fields "prompt") with
              | true => rfl
              | false => exact absurd (by simp [hh]) hc
            · cases hh : pyTruthyOpt (dictLookup fields "target_model") with
              | true => rfl
              | false => exact absurd (by simp [hh]) hc
      | null =>
          rw [handler_nonobj_body ev store _ hm hl fun fs h2 => Json.noConfusion h2] at h
          exact absurd h (by simp)
      | bool b =>
          rw [handler_nonobj_body ev store _ hm hl fun fs h2 => Json.noConfusion h2] at h
          exact absurd h (by simp)
      | num n =>
          rw [handler_nonobj_body ev store _ hm hl fun fs h2 => Json.noConfusion h2] at h
          exact absurd h (by simp)
      | str s =>
          rw [handler_nonobj_body ev store _ hm hl fun fs h2 => Json.noConfusion h2] at h
          exact absurd h (by simp)
      | arr xs =>
          rw [handler_nonobj_body ev store _ hm hl fun fs h2 => Json.noConfusion h2] at h
          exact absurd h (by simp)
  · rw [handler_not_post ev store hm] at h
    exact absurd h (by simp)

/-- C2 counterexample: for the unsupported `target_model = "openai"` the
secret store is contacted (and the request is only then rejected with 400),
refuting "the secret store is never queried on behalf of a request whose
target_model is not a supported provider name". -/
theorem C2_counterexample :
    (lambda_handler
        ⟨some "POST", some "\x7b\"prompt\":\"x\",\"target_model\":\"openai\"\x7d"⟩
        (Except.ok "\x7b\x7d")).secretsQueried = true ∧
      (lambda_handler
          ⟨some "POST", some "\x7b\"prompt\":\"x\",\"target_model\":\"openai\"\x7d"⟩
          (Except.ok "\x7b\x7d")).response =
        ⟨400, errBody "Invalid target_model, choose 'bedrock' or 'azure'"⟩ :=
  ⟨rfl, rfl⟩

/-- Witness for C2: a run that did contact the secret store indeed had a POST
method, an object body, and truthy `prompt` and `target_model`. -/
theorem C2_witness :
    (⟨some "POST", some "\x7b\"prompt\":\"x\",\"target_model\":\"openai\"\x7d"⟩ :
        Event).httpMethod = some "POST" ∧
      ∃ fields,
        loads ((some "\x7b\"prompt\":\"x\",\"target_model\":\"openai\"\x7d" :
            Option String).getD "\x7b\x7d") = some (Json.obj fields) ∧
          pyTruthyOpt (dictLookup fields "prompt") = true ∧
          pyTruthyOpt (dictLookup fields "target_model") = true :=
  C2_secrets_only_after_presence_validation
    ⟨some "POST", some "\x7b\"prompt\":\"x\",\"target_model\":\"openai\"\x7d"⟩
    (Except.ok "\x7b\x7d") rfl

/-- C3: with a resolved credential set holding the providers' keys, the
scenario `prompt:"hello", target_model:"bedrock"` returns 200 with model
`bedrock` and the simulated Bedrock reply, and `prompt:"hi",
target_model:"azure"` returns 200 with model `azure_openai` and the
simulated Azure OpenAI reply. -/
theorem C3_scenario_responses (store : Except Unit String)
    (secrets bkey akey aendp : Json)
    (hs : get_secrets store = Except.ok secrets)
    (hbk : pySubscript secrets "bedrock_api_key" = Except.ok bkey)
    (hak : pySubscript secrets "azure_api_key" = Except.ok akey)
    (hae : pySubscript secrets "azure_endpoint" = Except.ok aendp) :
    (lambda_handler
        ⟨some "POST", some "\x7b\"prompt\":\"hello\",\"target_model\":\"bedrock\"\x7d"⟩
        store).response =
      ⟨200, Json.obj [("model", Json.str "bedrock"),
        ("reply", Json.str "Simulated Bedrock response to 'hello'")]⟩ ∧
    (lambda_handler
        ⟨some "POST", some "\x7b\"prompt\":\"hi\",\"target_model\":\"azure\"\x7d"⟩
        store).response =
      ⟨200, Json.obj [("model", Json.str "azure_openai"),
        ("reply", Json.str "Simulated Azure OpenAI response to 'hi'")]⟩ := by
  constructor
  · rw [handler_bedrock_ok
      ⟨some "POST", some "\x7b\"prompt\":\"hello\",\"target_model\":\"bedrock\"\x7d"⟩ store
      [("prompt", Json.str "hello"), ("target_model", Json.str "bedrock")]
      (Json.str "hello") "bedrock" secrets bkey rfl rfl rfl rfl (by decide)
      (by decide) hs (by decide) hbk]
    rfl
  · rw [handler_azure_ok
      ⟨some "POST", some "\x7b\"prompt\":\"hi\",\"target_model\":\"azure\"\x7d"⟩ store
      [("prompt", Json.str "hi"), ("target_model", Json.str "azure")]
      (Json.str "hi") "azure" secrets akey aendp rfl rfl rfl rfl (by decide)
      (by decide) hs (by decide) hak hae]
    rfl

/-- Witness for C3: a concrete secret payload holding all three credential
keys produces both scenario responses. -/
theorem C3_witness :
    get_secrets (Except.ok
        "\x7b\"bedrock_api_key\":\"b\",\"azure_api_key\":\"a\",\"azure_endpoint\":\"e\"\x7d") =
      Except.ok (Json.obj [("bedrock_api_key", Json.str "b"),
        ("azure_api_key", Json.str "a"), ("azure_endpoint", Json.str "e")]) ∧
    (lambda_handler
        ⟨some "POST", some "\x7b\"prompt\":\"hello\",\"target_model\":\"bedrock\"\x7d"⟩
        (Except.ok
          "\x7b\"bedrock_api_key\":\"b\",\"azure_api_key\":\"a\",\"azure_endpoint\":\"e\"\x7d")).response =
      ⟨200, Json.obj [("model", Json.str "bedrock"),
        ("reply", Json.str "Simulated Bedrock response to 'hello'")]⟩ ∧
    (lambda_handler
        ⟨some "POST", some "\x7b\"prompt\":\"hi\",\"target_model\":\"azure\"\x7d"⟩
        (Except.ok
          "\x7b\"bedrock_api_key\":\"b\",\"azure_api_key\":\"a\",\"azure_endpoint\":\"e\"\x7d")).response =
      ⟨200, Json.obj [("model", Json.str "azure_openai"),
        ("reply", Json.str "Simulated Azure OpenAI response to 'hi'")]⟩ := by
  refine ⟨rfl, ?_⟩
  exact C3_scenario_responses _
    (Json.obj [("bedrock_api_key", Json.str "b"), ("azure_api_key", Json.str "a"),
      ("azure_endpoint", Json.str "e")])
    (Json.str "b") (Json.str "a") (Json.str "e") rfl rfl rfl rfl

/-- C4: for a valid POST request, the case-folded `target_model` selects
exactly one provider variant: any casing of `bedrock` yields exactly the
Bedrock variant's response (model `bedrock`), any casing of `azure` exactly
the Azure variant's response (model `azure_openai`). -/
theorem C4_dispatch_by_case_folded_target (ev : Event) (store : Except Unit String)
    (fields : List (String × Json)) (p : Json) (t : String) (secrets : Json)
    (hm : ev.httpMethod = some "POST")
    (hb : loads (ev.body.getD "\x7b\x7d") = some (Json.obj fields))
    (hp : dictLookup fields "prompt" = some p)
    (ht : dictLookup fields "target_model" = some (Json.str t))
    (hpt : pyTruthy p = true) (hne : t ≠ "")
    (hs : get_secrets store = Except.ok secrets) :
    (∀ key, pyLower t = "bedrock" →
        pySubscript secrets "bedrock_api_key" = Except.ok key →
        (lambda_handler ev store).response = ⟨200, call_bedrock_api p key⟩ ∧
          getField (lambda_handler ev store).response.body "model" =
            some (Json.str "bedrock")) ∧
    (∀ key endpoint, pyLower t = "azure" →
        pySubscript secrets "azure_api_key" = Except.ok key →
        pySubscript secrets "azure_endpoint" = Except.ok endpoint →
        (lambda_handler ev store).response = ⟨200, call_azure_openai p key endpoint⟩ ∧
          getField (lambda_handler ev store).response.body "model" =
            some (Json.str "azure_openai")) := by
  constructor
  · intro key hlow hk
    rw [handler_bedrock_ok ev store fields p t secrets key hm hb hp ht hpt hne hs hlow hk]
    exact ⟨rfl, rfl⟩
  · intro key endpoint hlow hak hae
    rw [handler_azure_ok ev store fields p t secrets key endpoint hm hb hp ht hpt hne
      hs hlow hak hae]
    exact ⟨rfl, rfl⟩

/-- Witness for C4: `target_model = "BEDROCK"` routes to Bedrock and
`target_model = "azure"` routes to Azure OpenAI, with the claimed `model`
fields. -/
theorem C4_witness :
    pyLower "BEDROCK" = "bedrock" ∧
    getField (lambda_handler
        ⟨some "POST", some "\x7b\"prompt\":\"hello\",\"target_model\":\"BEDROCK\"\x7d"⟩
        (Except.ok
          "\x7b\"bedrock_api_key\":\"b\",\"azure_api_key\":\"a\",\"azure_endpoint\":\"e\"\x7d")).response.body
      "model" = some (Json.str "bedrock") ∧
    getField (lambda_handler
        ⟨some "POST", some "\x7b\"prompt\":\"hi\",\"target_model\":\"azure\"\x7d"⟩
        (Except.ok
          "\x7b\"bedrock_api_key\":\"b\",\"azure_api_key\":\"a\",\"azure_endpoint\":\"e\"\x7d")).response.body
      "model" = some (Json.str "azure_openai") :=
  ⟨by decide,
   ((C4_dispatch_by_case_folded_target
      ⟨some "POST", some "\x7b\"prompt\":\"hello\",\"target_model\":\"BEDROCK\"\x7d"⟩
      (Except.ok
        "\x7b\"bedrock_api_key\":\"b\",\"azure_api_key\":\"a\",\"azure_endpoint\":\"e\"\x7d")
      [("prompt", Json.str "hello"), ("target_model", Json.str "BEDROCK")]
      (Json.str "hello") "BEDROCK"
      (Json.obj [("bedrock_api_key", Json.str "b"), ("azure_api_key", Json.str "a"),
        ("azure_endpoint", Json.str "e")])
      rfl rfl rfl rfl (by decide) (by decide) rfl).1
     (Json.str "b") (by decide) rfl).2,
   ((C4_dispatch_by_case_folded_target
      ⟨some "POST", some "\x7b\"prompt\":\"hi\",\"target_model\":\"azure\"\x7d"⟩
      (Except.ok
        "\x7b\"bedrock_api_key\":\"b\",\"azure_api_key\":\"a\",\"azure_endpoint\":\"e\"\x7d")
      [("prompt", Json.str "hi"), ("target_model", Json.str "azure")]
      (Json.str "hi") "azure"
      (Json.obj [("bedrock_api_key", Json.str "b"), ("azure_api_key", Json.str "a"),
        ("azure_endpoint", Json.str "e")])
      rfl rfl rfl rfl (by decide) (by decide) rfl).2
     (Json.str "a") (Json.str "e") (by decide) rfl rfl).2⟩

/-- C5: a POST request whose JSON-object body lacks `prompt`, lacks
`target_model`, or has either of them present but empty, gets status 400
with the missing-fields error body. -/
theorem C5_missing_fields_400 (ev : Event) (store : Except Unit String)
    (fields : List (String × Json))
    (hm : ev.httpMethod = some "POST")
    (hb : loads (ev.body.getD "\x7b\x7d") = some (Json.obj fields))
    (h : dictLookup fields "prompt" = none ∨
         dictLookup fields "prompt" = some (Json.str "") ∨
         dictLookup fields "target_model" = none ∨
         dictLookup fields "target_model" = some (Json.str "")) :
    (lambda_handler ev store).response =
      ⟨400, errBody "Missing 'prompt' or 'target_model' in request body"⟩ := by
  rw [handler_missing ev store fields hm hb
    (by rcases h with h | h | h | h <;> simp [h, pyTruthyOpt, pyTruthy])]

/-- Witness for C5: the empty JSON object body gets the missing-fields 400. -/
theorem C5_witness :
    loads ((some "\x7b\x7d" : Option String).getD "\x7b\x7d") = some (Json.obj []) ∧
      (lambda_handler ⟨some "POST", some "\x7b\x7d"⟩ (Except.error ())).response =
        ⟨400, errBody "Missing 'prompt' or 'target_model' in request body"⟩ :=
  ⟨rfl, C5_missing_fields_400 ⟨some "POST", some "\x7b\x7d"⟩ (Except.error ()) [] rfl rfl
    (Or.inl rfl)⟩

/-- C6: every request whose httpMethod is not POST gets status 405 with an
error body, regardless of the body's content or the secret store's state. -/
theorem C6_non_post_405 (ev : Event) (store : Except Unit String)
    (h : ev.httpMethod ≠ some "POST") :
    (lambda_handler ev store).response =
      ⟨405, errBody "Method Not Allowed, only POST supported"⟩ := by
  rw [handler_not_post ev store h]

/-- Witness for C6: a GET request with an otherwise valid body is rejected
with 405 even though the secret store would fail. -/
theorem C6_witness :
    (some "GET" : Option String) ≠ some "POST" ∧
      (lambda_handler
          ⟨some "GET", some "\x7b\"prompt\":\"hello\",\"target_model\":\"bedrock\"\x7d"⟩
          (Except.error ())).response =
        ⟨405, errBody "Method Not Allowed, only POST supported"⟩ :=
  ⟨by simp, C6_non_post_405 _ (Except.error ()) (by simp)⟩

/-- C7 (amended): for a POST request that passes field validation, the
handler returns the generic 500 body (never the raw exception text) when the
secret-store lookup throws, when the secret payload is not decodable (the
lookup result is an error for either reason), or when the payload lacks a
key the selected provider requires; a payload that merely lacks the other
provider's keys is not rejected (see the counterexample). -/
theorem C7_credential_failure_500 (ev : Event) (store : Except Unit String)
    (fields : List (String × Json)) (p : Json) (t : String)
    (hm : ev.httpMethod = some "POST")
    (hb : loads (ev.body.getD "\x7b\x7d") = some (Json.obj fields))
    (hp : dictLookup fields "prompt" = some p)
    (ht : dictLookup fields "target_model" = some (Json.str t))
    (hpt : pyTruthy p = true) (hne : t ≠ "") :
    (∀ e, get_secrets store = Except.error e →
        (lambda_handler ev store).response = ⟨500, errBody "Internal server error"⟩) ∧
    (∀ secrets e, get_secrets store = Except.ok secrets →
        pyLower t = "bedrock" →
        pySubscript secrets "bedrock_api_key" = Except.error e →
        (lambda_handler ev store).response = ⟨500, errBody "Internal server error"⟩) ∧
    (∀ secrets e, get_secrets store = Except.ok secrets →
        pyLower t = "azure" →
        pySubscript secrets "azure_api_key" = Except.error e →
        (lambda_handler ev store).response = ⟨500, errBody "Internal server error"⟩) ∧
    (∀ secrets key e, get_secrets store = Except.ok secrets →
        pyLower t = "azure" →
        pySubscript secrets "azure_api_key" = Except.ok key →
        pySubscript secrets "azure_endpoint" = Except.error e →
        (lambda_handler ev store).response = ⟨500, errBody "Internal server error"⟩) := by
  have htt : pyTruthy (Json.str t) = true := by simp [pyTruthy, hne]
  refine ⟨?_, ?_, ?_, ?_⟩
  · intro e hs
    rw [handler_secrets_error ev store fields p (Json.str t) e hm hb hp ht hpt htt hs]
    rfl
  · intro secrets e hs hlow hk
    rw [handler_bedrock_keyerr ev store fields p t secrets e hm hb hp ht hpt hne hs hlow hk]
    rfl
  · intro secrets e hs hlow hak
    rw [handler_azure_keyerr ev store fields p t secrets e hm hb hp ht hpt hne hs hlow hak]
    rfl
  · intro secrets key e hs hlow hak hae
    rw [handler_azure_endpointerr ev store fields p t secrets key e hm hb hp ht hpt hne
      hs hlow hak hae]
    rfl

/-- C7 counterexample: a secret payload that lacks `azure_api_key` and
`azure_endpoint` — hence cannot be decoded into the spec's full
CredentialSet — still yields a 200 for a bedrock request, not the claimed
500. -/
theorem C7_counterexample :
    getField (Json.obj [("bedrock_api_key", Json.str "k")]) "azure_api_key" = none ∧
    get_secrets (Except.ok "\x7b\"bedrock_api_key\":\"k\"\x7d") =
      Except.ok (Json.obj [("bedrock_api_key", Json.str "k")]) ∧
    (lambda_handler
        ⟨some "POST", some "\x7b\"prompt\":\"hello\",\"target_model\":\"bedrock\"\x7d"⟩
        (Except.ok "\x7b\"bedrock_api_key\":\"k\"\x7d")).response.statusCode = 200 ∧
    (lambda_handler
        ⟨some "POST", some "\x7b\"prompt\":\"hello\",\"target_model\":\"bedrock\"\x7d"⟩
        (Except.ok "\x7b\"bedrock_api_key\":\"k\"\x7d")).response.statusCode ≠ 500 :=
  ⟨rfl, rfl, rfl, by decide⟩

/-- Witness for C7: a failing secret lookup on a validated bedrock request
yields the generic 500 body. -/
theorem C7_witness :
    get_secrets (Except.error ()) = Except.error PyErr.clientError ∧
      (lambda_handler
          ⟨some "POST", some "\x7b\"prompt\":\"hello\",\"target_model\":\"bedrock\"\x7d"⟩
          (Except.error ())).response = ⟨500, errBody "Internal server error"⟩ :=
  ⟨rfl,
   (C7_credential_failure_500
      ⟨some "POST", some "\x7b\"prompt\":\"hello\",\"target_model\":\"bedrock\"\x7d"⟩
      (Except.error ())
      [("prompt", Json.str "hello"), ("target_model", Json.str "bedrock")]
      (Json.str "hello") "bedrock" rfl rfl rfl rfl (by decide) (by decide)).1
     PyErr.clientError rfl⟩

/-- C8: every activation produces exactly one response, with status in
200/400/405/500, whose body is a ProviderResponse exactly when the status is
200 and an ErrorResponse exactly otherwise — never both, never neither. -/
theorem C8_response_shape_invariant (ev : Event) (store : Except Unit String) :
    ((lambda_handler ev store).response.statusCode = 200 ∧
        isProviderBody (lambda_handler ev store).response.body ∧
        ¬ isErrorBody (lambda_handler ev store).response.body) ∨
      (((lambda_handler ev store).response.statusCode = 400 ∨
          (lambda_handler ev store).response.statusCode = 405 ∨
          (lambda_handler ev store).response.statusCode = 500) ∧
        isErrorBody (lambda_handler ev store).response.body ∧
        ¬ isProviderBody (lambda_handler ev store).response.body) := by
  by_cases hm : ev.httpMethod = some "POST"
  · rcases hl : loads (ev.body.getD "\x7b\x7d") with - | j
    · rw [handler_bad_json ev store hm hl]
      exact Or.inr ⟨Or.inr (Or.inr rfl), errBody_isErrorBody _, not_isProviderBody_errBody _⟩
    · cases j with
      | obj fields =>
          by_cases hc : (!pyTruthyOpt (dictLookup fields "prompt") ||
              !pyTruthyOpt (dictLookup fields "target_model")) = true
          · rw [handler_missing ev store fields hm hl hc]
            exact Or.inr ⟨Or.inl rfl, errBody_isErrorBody _, not_isProviderBody_errBody _⟩
          · obtain ⟨p, hp, hpt⟩ :
                ∃ p, dictLookup fields "prompt" = some p ∧ pyTruthy p = true := by
              cases hdp : dictLookup fields "prompt" with
              | none => exact absurd (by simp [hdp, pyTruthyOpt]) hc
              | some p =>
                  cases hpv : pyTruthy p with
                  | false => exact absurd (by simp [hdp, hpv, pyTruthyOpt]) hc
                  | true => exact ⟨p, rfl, hpv⟩
            obtain ⟨tj, ht, htt⟩ :
                ∃ tj, dictLookup fields "target_model" = some tj ∧ pyTruthy tj = true := by
              cases hdt : dictLookup fields "target_model" with
              | none => exact absurd (by simp [hdt, pyTruthyOpt]) hc
              | some tj =>
                  cases htv : pyTruthy tj with
                  | false => exact absurd (by simp [hdt, htv, pyTruthyOpt]) hc
                  | true => exact ⟨tj, rfl, htv⟩
            cases hs : get_secrets store with
            | error e =>
                rw [handler_secrets_error ev store fields p tj e hm hl hp ht hpt htt hs]
                exact Or.inr ⟨Or.inr (Or.inr rfl), errBody_isErrorBody _,
                  not_isProviderBody_errBody _⟩
            | ok secrets =>
                cases tj with
                | str t =>
                    have hne : t ≠ "" := by
                      intro h0
                      rw [h0] at htt
                      exact absurd htt (by simp [pyTruthy])
                    by_cases hlb : pyLower t = "bedrock"
                    · cases hk : pySubscript secrets "bedrock_api_key" with
                      | error e =>
                          rw [handler_bedrock_keyerr ev store fields p t secrets e hm hl
                            hp ht hpt hne hs hlb hk]
                          exact Or.inr ⟨Or.inr (Or.inr rfl), errBody_isErrorBody _,
                            not_isProviderBody_errBody _⟩
                      | ok key =>
                          rw [handler_bedrock_ok ev store fields p t secrets key hm hl
                            hp ht hpt hne hs hlb hk]
                          exact Or.inl ⟨rfl, providerBody_bedrock p key,
                            not_isErrorBody_bedrock p key⟩
                    · by_cases hla : pyLower t = "azure"
                      · cases hak : pySubscript secrets "azure_api_key" with
                        | error e =>
                            rw [handler_azure_keyerr ev store fields p t secrets e hm hl
                              hp ht hpt hne hs hla hak]
                            exact Or.inr ⟨Or.inr (Or.inr rfl), errBody_isErrorBody _,
                              not_isProviderBody_errBody _⟩
                        | ok key =>
                            cases hae : pySubscript secrets "azure_endpoint" with
                            | error e =>
                                rw [handler_azure_endpointerr ev store fields p t secrets
                                  key e hm hl hp ht hpt hne hs hla hak hae]
                                exact Or.inr ⟨Or.inr (Or.inr rfl), errBody_isErrorBody _,
                                  not_isProviderBody_errBody _⟩
                            | ok endpoint =>
                                rw [handler_azure_ok ev store fields p t secrets key
                                  endpoint hm hl hp ht hpt hne hs hla hak hae]
                                exact Or.inl ⟨rfl, providerBody_azure p key endpoint,
                                  not_isErrorBody_azure p key endpoint⟩
                      · rw [handler_invalid_target ev store fields p t secrets hm hl hp
                          ht hpt hne hs hlb hla]
                        exact Or.inr ⟨Or.inl rfl, errBody_isErrorBody _,
                          not_isProviderBody_errBody _⟩
                | null =>
                    rw [handler_target_nonstring ev store fields p _ secrets hm hl hp ht
                      hpt htt hs fun s h2 => Json.noConfusion h2]
                    exact Or.inr ⟨Or.inr (Or.inr rfl), errBody_isErrorBody _,
                      not_isProviderBody_errBody _⟩
                | bool b =>
                    rw [handler_target_nonstring ev store fields p _ secrets hm hl hp ht
                      hpt htt hs fun s h2 => Json.noConfusion h2]
                    exact Or.inr ⟨Or.inr (Or.inr rfl), errBody_isErrorBody _,
                      not_isProviderBody_errBody _⟩
                | num n =>
                    rw [handler_target_nonstring ev store fields p _ secrets hm hl hp ht
                      hpt htt hs fun s h2 => Json.noConfusion h2]
                    exact Or.inr ⟨Or.inr (Or.inr rfl), errBody_isErrorBody _,
                      not_isProviderBody_errBody _⟩
                | arr xs =>
                    rw [handler_target_nonstring ev store fields p _ secrets hm hl hp ht
                      hpt htt hs fun s h2 => Json.noConfusion h2]
                    exact Or.inr ⟨Or.inr (Or.inr rfl), errBody_isErrorBody _,
                      not_isProviderBody_errBody _⟩
                | obj fs =>
                    rw [handler_target_nonstring ev store fields p _ secrets hm hl hp ht
                      hpt htt hs fun s h2 => Json.noConfusion h2]
                    exact Or.inr ⟨Or.inr (Or.inr rfl), errBody_isErrorBody _,
                      not_isProviderBody_errBody _⟩
      | null =>
          rw [handler_nonobj_body ev store _ hm hl fun fs h2 => Json.noConfusion h2]
          exact Or.inr ⟨Or.inr (Or.inr rfl), errBody_isErrorBody _,
            not_isProviderBody_errBody _⟩
      | bool b =>
          rw [handler_nonobj_body ev store _ hm hl fun fs h2 => Json.noConfusion h2]
          exact Or.inr ⟨Or.inr (Or.inr rfl), errBody_isErrorBody _,
            not_isProviderBody_errBody _⟩
      | num n =>
          rw [handler_nonobj_body ev store _ hm hl fun fs h2 => Json.noConfusion h2]
          exact Or.inr ⟨Or.inr (Or.inr rfl), errBody_isErrorBody _,
            not_isProviderBody_errBody _⟩
      | str s =>
          rw [handler_nonobj_body ev store _ hm hl fun fs h2 => Json.noConfusion h2]
          exact Or.inr ⟨Or.inr (Or.inr rfl), errBody_isErrorBody _,
            not_isProviderBody_errBody _⟩
      | arr xs =>
          rw [handler_nonobj_body ev store _ hm hl fun fs h2 => Json.noConfusion h2]
          exact Or.inr ⟨Or.inr (Or.inr rfl), errBody_isErrorBody _,
            not_isProviderBody_errBody _⟩
  · rw [handler_not_post ev store hm]
    exact Or.inr ⟨Or.inr (Or.inl rfl), errBody_isErrorBody _, not_isProviderBody_errBody _⟩

/-- C9 (amended): a POST body string that is not valid JSON raises inside
the try block and gets the generic 500; and when `prompt` is present and
truthy, a truthy non-string `target_model` (number, list, …) raises
`AttributeError` at `.lower()` and also gets the generic 500, not a 400.
Without a truthy `prompt` the presence check at line 59 fires first and
returns the missing-fields 400 instead (see the counterexample). -/
theorem C9_malformed_body_500 :
    (∀ (ev : Event) (store : Except Unit String) (s : String),
        ev.httpMethod = some "POST" → ev.body = some s → loads s = none →
        (lambda_handler ev store).response = ⟨500, errBody "Internal server error"⟩) ∧
    (∀ (ev : Event) (store : Except Unit String) (fields : List (String × Json))
        (p tj : Json),
        ev.httpMethod = some "POST" →
        loads (ev.body.getD "\x7b\x7d") = some (Json.obj fields) →
        dictLookup fields "prompt" = some p → pyTruthy p = true →
        dictLookup fields "target_model" = some tj → pyTruthy tj = true →
        (∀ s, tj ≠ Json.str s) →
        (lambda_handler ev store).response = ⟨500, errBody "Internal server error"⟩) := by
  constructor
  · intro ev store s hm hbody hl
    rw [handler_bad_json ev store hm (by simp [hbody, hl])]
    rfl
  · intro ev store fields p tj hm hb hp hpt ht htt hns
    cases hs : get_secrets store with
    | error e =>
        rw [handler_secrets_error ev store fields p tj e hm hb hp ht hpt htt hs]
        rfl
    | ok secrets =>
        rw [handler_target_nonstring ev store fields p tj secrets hm hb hp ht hpt htt
          hs hns]
        rfl

/-- C9 counterexample: a POST body whose `target_model` is present and
truthy but not a string (the number 5) yet whose `prompt` is absent fails
the presence check first and gets the 400 missing-fields response, not the
claimed 500. -/
theorem C9_counterexample :
    loads "\x7b\"target_model\":5\x7d" =
      some (Json.obj [("target_model", Json.num 5)]) ∧
    pyTruthy (Json.num 5) = true ∧
    (lambda_handler ⟨some "POST", some "\x7b\"target_model\":5\x7d"⟩
        (Except.error ())).response =
      ⟨400, errBody "Missing 'prompt' or 'target_model' in request body"⟩ ∧
    (lambda_handler ⟨some "POST", some "\x7b\"target_model\":5\x7d"⟩
        (Except.error ())).response.statusCode ≠ 500 :=
  ⟨rfl, rfl, rfl, by decide⟩

/-- Witness for C9: the body `"not json"` and a numeric `target_model` both
yield the generic 500. -/
theorem C9_witness :
    loads "not json" = none ∧
    (lambda_handler ⟨some "POST", some "not json"⟩ (Except.error ())).response =
      ⟨500, errBody "Internal server error"⟩ ∧
    (lambda_handler
        ⟨some "POST", some "\x7b\"prompt\":\"x\",\"target_model\":5\x7d"⟩
        (Except.ok "\x7b\x7d")).response =
      ⟨500, errBody "Internal server error"⟩ :=
  ⟨rfl,
   C9_malformed_body_500.1 ⟨some "POST", some "not json"⟩ (Except.error ())
     "not json" rfl rfl rfl,
   C9_malformed_body_500.2
     ⟨some "POST", some "\x7b\"prompt\":\"x\",\"target_model\":5\x7d"⟩
     (Except.ok "\x7b\x7d")
     [("prompt", Json.str "x"), ("target_model", Json.num 5)]
     (Json.str "x") (Json.num 5) rfl rfl rfl (by decide) rfl (by decide)
     (fun s h2 => Json.noConfusion h2)⟩

/-- C10: a POST event with no `body` key at all is treated as the empty JSON
object: the handler returns the missing-fields 400 and the secret store is
never contacted (`secretsQueried = false`). -/
theorem C10_absent_body_400 (store : Except Unit String) :
    lambda_handler ⟨some "POST", none⟩ store =
      ⟨⟨400, errBody "Missing 'prompt' or 'target_model' in request body"⟩, false⟩ :=
  rfl
